import Mathlib

/-!
Verification development for the discord-notification-service webhook core:
the mod-version schema validator (yup `object().shape({...})` with
`stripUnknown: true`), the webhook server's error handler, and the
per-category role-ping cooldown / composition / dispatch pipeline described
by the specification.
-/

set_option maxRecDepth 4096

/-- A JSON value as delivered by the express `json()` body parser.  An absent
object key is represented by `Option.none` at lookup time, so there is no
separate `undefined` constructor. -/
inductive Json where
  | null
  | bool (b : Bool)
  | num (n : Int)
  | str (s : String)
  | arr (elems : List Json)
  | obj (fields : List (String × Json))

/-- Looks a key up in a JSON object's field list. -/
def lookupField : List (String × Json) → String → Option Json
  | [], _ => none
  | (k, v) :: rest, key => if k == key then some v else lookupField rest key

mutual

/-- JavaScript `String(value)` / `value.toString()` as used by yup's string
cast: strings unchanged, numbers and booleans rendered, arrays joined with
commas (with `null` elements rendered empty), plain objects rendered as
`[object Object]`. -/
def jsonToString : Json → String
  | Json.null => "null"
  | Json.bool b => if b then "true" else "false"
  | Json.num n => toString n
  | Json.str s => s
  | Json.arr elems => String.intercalate (",") (jsonElemsToStrings elems)
  | Json.obj _ => "[object Object]"

/-- Stringifies the elements of a JSON array the way `Array.prototype.join`
does: `null` becomes the empty string, everything else is stringified. -/
def jsonElemsToStrings : List Json → List String
  | [] => []
  | Json.null :: rest => "" :: jsonElemsToStrings rest
  | j :: rest => jsonToString j :: jsonElemsToStrings rest

end

/-- The kind of constraint a field violated, mirroring the yup test that
raised the `ValidationError`: `required` (absent or empty string),
`notNull` (explicit `null` for a non-nullable schema), `typeError`
(value failed the schema's type check after casting), `url` (string did
not match yup's URL pattern). -/
inductive ValidationErrorKind where
  | required
  | notNull
  | typeError
  | url
deriving DecidableEq

/-- A yup `ValidationError`: the path of the offending field (empty for a
whole-input failure) and the violated constraint. -/
structure ValidationError where
  path : String
  kind : ValidationErrorKind
deriving DecidableEq

/-! ### yup's URL pattern

yup's `string().url()` tests the value against its anchored `rUrl` regular
expression (case-insensitive): an optional `(https?|ftp):` scheme, mandatory
`//`, optional userinfo, an IPv4 address or dotted hostname, optional port,
path, query and fragment.  We embed the regex as a nondeterministic matcher:
a `Matcher` maps an input suffix to the list of suffixes remaining after
every possible way of consuming a prefix. -/

/-- A nondeterministic prefix matcher: all suffixes left after matching. -/
def Matcher : Type := List Char → List (List Char)

/-- Matches the empty string. -/
def mEps : Matcher := fun s => [s]

/-- Matches a single character satisfying `p`. -/
def mPred (p : Char → Bool) : Matcher := fun s =>
  match s with
  | [] => []
  | c :: rest => if p c then [rest] else []

/-- Matches `a` then `b`. -/
def mSeq (a b : Matcher) : Matcher := fun s => (a s).flatMap b

/-- Matches `a` or `b`. -/
def mAlt (a b : Matcher) : Matcher := fun s => a s ++ b s

/-- Matches `a` or the empty string (regex `?`). -/
def mOpt (a : Matcher) : Matcher := fun s => s :: a s

/-- Fuelled iteration for `mStar`: zero or more repetitions of `a`, each
required to consume at least one character. -/
def mStarAux (a : Matcher) : Nat → Matcher
  | 0 => fun s => [s]
  | n + 1 => fun s =>
      s :: (((a s).filter (fun t => t.length < s.length)).flatMap (mStarAux a n))

/-- Regex `*`: since every starred subexpression of `rUrl` consumes at least
one character per repetition, the input length bounds the repetitions. -/
def mStar (a : Matcher) : Matcher := fun s => mStarAux a s.length s

/-- Regex `+`. -/
def mPlus (a : Matcher) : Matcher := mSeq a (mStar a)

/-- Matches one given character. -/
def chr (x : Char) : Matcher := mPred (fun c => c == x)

/-- Matches a literal string. -/
def mStr (s : String) : Matcher := (s.toList.map chr).foldr mSeq mEps

/-- Lower-case ASCII letter (the input is lower-cased first, implementing the
regex's `i` flag). -/
def isAlphaL (c : Char) : Bool := 97 ≤ c.toNat && c.toNat ≤ 122

/-- ASCII digit. -/
def isDigitC (c : Char) : Bool := 48 ≤ c.toNat && c.toNat ≤ 57

/-- Lower-case hexadecimal digit, for the `%[\da-f]{2}` escapes. -/
def isHexL (c : Char) : Bool := isDigitC c || (97 ≤ c.toNat && c.toNat ≤ 102)

/-- The Unicode ranges `[ -퟿豈-﷏ﷰ-￯]` the regex
admits in host labels and path characters. -/
def isUniExtra (c : Char) : Bool :=
  (0xA0 ≤ c.toNat && c.toNat ≤ 0xD7FF) ||
  (0xF900 ≤ c.toNat && c.toNat ≤ 0xFDCF) ||
  (0xFDF0 ≤ c.toNat && c.toNat ≤ 0xFFEF)

/-- The regex's sub-delimiter class `[!\$&'\(\)\*\+,;=]`. -/
def isSubDelim (c : Char) : Bool :=
  ([(Char.ofNat 33), (Char.ofNat 36), (Char.ofNat 38), (Char.ofNat 39),
    (Char.ofNat 40), (Char.ofNat 41), (Char.ofNat 42), (Char.ofNat 43),
    (Char.ofNat 44), (Char.ofNat 59), (Char.ofNat 61)]).contains c

/-- Unreserved characters extended with the Unicode ranges:
`[a-z]|\d|-|\.|_|~|uni`. -/
def isUnreservedU (c : Char) : Bool :=
  isAlphaL c || isDigitC c || c == (Char.ofNat 45) || c == (Char.ofNat 46) ||
  c == (Char.ofNat 95) || c == (Char.ofNat 126) || isUniExtra c

/-- A percent escape `%[\da-f]{2}`. -/
def mPct : Matcher := mSeq (chr (Char.ofNat 37)) (mSeq (mPred isHexL) (mPred isHexL))

/-- Userinfo character: `(unreserved|pct|sub-delims|:)`. -/
def mUserinfoChar : Matcher :=
  mAlt (mPred isUnreservedU) (mAlt mPct (mAlt (mPred isSubDelim) (chr (Char.ofNat 58))))

/-- Path character: `(unreserved|pct|sub-delims|:|@)`. -/
def mPchar : Matcher := mAlt mUserinfoChar (chr (Char.ofNat 64))

/-- A decimal octet `(\d|[1-9]\d|1\d\d|2[0-4]\d|25[0-5])`. -/
def mDecOctet : Matcher :=
  mAlt (mPred isDigitC)
    (mAlt (mSeq (mPred (fun c => 49 ≤ c.toNat && c.toNat ≤ 57)) (mPred isDigitC))
      (mAlt (mSeq (chr (Char.ofNat 49)) (mSeq (mPred isDigitC) (mPred isDigitC)))
        (mAlt (mSeq (chr (Char.ofNat 50)) (mSeq (mPred (fun c => 48 ≤ c.toNat && c.toNat ≤ 52)) (mPred isDigitC)))
          (mSeq (mStr ("25")) (mPred (fun c => 48 ≤ c.toNat && c.toNat ≤ 53))))))

/-- An IPv4 address: four octets separated by dots. -/
def mIpv4 : Matcher :=
  mSeq mDecOctet (mSeq (chr (Char.ofNat 46))
    (mSeq mDecOctet (mSeq (chr (Char.ofNat 46))
      (mSeq mDecOctet (mSeq (chr (Char.ofNat 46)) mDecOctet)))))

/-- A host-label boundary character `([a-z]|\d|uni)`. -/
def isHostA (c : Char) : Bool := isAlphaL c || isDigitC c || isUniExtra c

/-- A host-label inner character `([a-z]|\d|-|\.|_|~|uni)`. -/
def isHostInner (c : Char) : Bool := isUnreservedU c

/-- A hostname label: a single boundary character, or boundary-inner*-boundary. -/
def mLabel : Matcher :=
  mAlt (mPred isHostA)
    (mSeq (mPred isHostA) (mSeq (mStar (mPred isHostInner)) (mPred isHostA)))

/-- A top-level-domain boundary character `([a-z]|uni)`. -/
def isTldA (c : Char) : Bool := isAlphaL c || isUniExtra c

/-- The final hostname label (no leading digit). -/
def mTld : Matcher :=
  mAlt (mPred isTldA)
    (mSeq (mPred isTldA) (mSeq (mStar (mPred isHostInner)) (mPred isTldA)))

/-- A dotted hostname: `(label\.)+tld\.?`. -/
def mHostname : Matcher :=
  mSeq (mPlus (mSeq mLabel (chr (Char.ofNat 46)))) (mSeq mTld (mOpt (chr (Char.ofNat 46))))

/-- The full anchored `rUrl` body applied to a (lower-cased) character list:
`((https?|ftp):)? \/\/ (userinfo@)? (ipv4|hostname) (:\d*)? path? query?
fragment?`. -/
def mRUrl : Matcher :=
  mSeq (mOpt (mSeq (mAlt (mSeq (mStr ("http")) (mOpt (chr (Char.ofNat 115)))) (mStr ("ftp"))) (chr (Char.ofNat 58))))
    (mSeq (mStr ("//"))
      (mSeq (mOpt (mSeq (mStar mUserinfoChar) (chr (Char.ofNat 64))))
        (mSeq (mAlt mIpv4 mHostname)
          (mSeq (mOpt (mSeq (chr (Char.ofNat 58)) (mStar (mPred isDigitC))))
            (mSeq (mOpt (mSeq (chr (Char.ofNat 47))
                (mOpt (mSeq (mPlus mPchar)
                  (mStar (mSeq (chr (Char.ofNat 47)) (mStar mPchar)))))))
              (mSeq (mOpt (mSeq (chr (Char.ofNat 63))
                  (mStar (mAlt mPchar (mAlt (mPred (fun c => 0xE000 ≤ c.toNat && c.toNat ≤ 0xF8FF))
                    (mAlt (chr (Char.ofNat 47)) (chr (Char.ofNat 63))))))))
                (mOpt (mSeq (chr (Char.ofNat 35))
                  (mStar (mAlt mPchar (mAlt (chr (Char.ofNat 47)) (chr (Char.ofNat 63)))))))))))))

/-- Lower-cases an ASCII letter, leaving every other character unchanged. -/
def lowerChar (c : Char) : Char :=
  if 65 ≤ c.toNat && c.toNat ≤ 90 then Char.ofNat (c.toNat + 32) else c

/-- Whether a string matches yup's anchored URL regex; the `i` flag is
implemented by ASCII-lower-casing the input, since every literal and
character class in the regex is lower-case ASCII. -/
def rUrlTest (s : String) : Bool :=
  ((mRUrl (s.toList.map lowerChar)).contains ([] : List Char))

/-! ### JSON.parse

yup 0.x's object schema carries a default `coerce` transform that, when the
input value is a string, attempts `JSON.parse` on it (a parse error yielding
`null`), and then replaces any non-object result by `null`.  The parser below
models `JSON.parse` over the embedding's `Json` values.  Two modelling
boundaries, matching the rest of the embedding: number literals exist only in
integer form (`Json.num` is an `Int`), so a literal with a fractional or
exponent part is outside the model and fails the parse; and a `\u` escape
denotes its scalar value (no UTF-16 surrogate pairing). -/

/-- JSON whitespace: space, tab, line feed, carriage return. -/
def isJsonWs (c : Char) : Bool :=
  c == (Char.ofNat 32) || c == (Char.ofNat 9) || c == (Char.ofNat 10) || c == (Char.ofNat 13)

/-- Drops leading JSON whitespace. -/
def skipWs (cs : List Char) : List Char := cs.dropWhile isJsonWs

/-- The value of a hexadecimal digit, if the character is one. -/
def hexVal (c : Char) : Option Nat :=
  if 48 ≤ c.toNat && c.toNat ≤ 57 then some (c.toNat - 48)
  else if 97 ≤ c.toNat && c.toNat ≤ 102 then some (c.toNat - 87)
  else if 65 ≤ c.toNat && c.toNat ≤ 70 then some (c.toNat - 55)
  else none

/-- Consumes a literal character sequence, returning the remainder. -/
def afterLit : List Char → List Char → Option (List Char)
  | [], cs => some cs
  | l :: ls, c :: cs => if c == l then afterLit ls cs else none
  | _ :: _, [] => none

/-- Parses the body of a JSON string literal (the opening quote already
consumed): plain characters above `0x1F`, the eight single-character escapes,
and `\uXXXX` escapes. -/
def jpStringAux : List Char → List Char → Option (List Char × List Char)
  | acc, c :: rest =>
      if c == (Char.ofNat 34) then some (acc.reverse, rest)
      else if c == (Char.ofNat 92) then
        match rest with
        | e :: rest2 =>
            if e == (Char.ofNat 34) then jpStringAux ((Char.ofNat 34) :: acc) rest2
            else if e == (Char.ofNat 92) then jpStringAux ((Char.ofNat 92) :: acc) rest2
            else if e == (Char.ofNat 47) then jpStringAux ((Char.ofNat 47) :: acc) rest2
            else if e == (Char.ofNat 98) then jpStringAux ((Char.ofNat 8) :: acc) rest2
            else if e == (Char.ofNat 102) then jpStringAux ((Char.ofNat 12) :: acc) rest2
            else if e == (Char.ofNat 110) then jpStringAux ((Char.ofNat 10) :: acc) rest2
            else if e == (Char.ofNat 114) then jpStringAux ((Char.ofNat 13) :: acc) rest2
            else if e == (Char.ofNat 116) then jpStringAux ((Char.ofNat 9) :: acc) rest2
            else if e == (Char.ofNat 117) then
              match rest2 with
              | h1 :: h2 :: h3 :: h4 :: rest3 =>
                  match hexVal h1, hexVal h2, hexVal h3, hexVal h4 with
                  | some a, some b, some c2, some d =>
                      jpStringAux ((Char.ofNat (((a * 16 + b) * 16 + c2) * 16 + d)) :: acc) rest3
                  | _, _, _, _ => none
              | _ => none
            else none
        | [] => none
      else if c.toNat < 32 then none
      else jpStringAux (c :: acc) rest
  | _, [] => none

/-- Finishes a JSON number after its integer digits: a fractional or exponent
part is outside the integer number model and fails the parse. -/
def jpNumTail (neg : Bool) (n : Nat) (rest : List Char) : Option (Int × List Char) :=
  match rest with
  | c :: _ =>
      if c == (Char.ofNat 46) || c == (Char.ofNat 101) || c == (Char.ofNat 69) then none
      else some ((if neg then -(n : Int) else (n : Int)), rest)
  | [] => some ((if neg then -(n : Int) else (n : Int)), rest)

/-- Parses the unsigned digits of a JSON number: a lone `0`, or a nonzero
digit followed by more digits (JSON forbids leading zeros). -/
def jpNumBody (neg : Bool) (cs : List Char) : Option (Int × List Char) :=
  match cs with
  | c :: rest =>
      if c == (Char.ofNat 48) then jpNumTail neg 0 rest
      else if 49 ≤ c.toNat && c.toNat ≤ 57 then
        let ds := rest.takeWhile isDigitC
        jpNumTail neg (ds.foldl (fun acc d => acc * 10 + (d.toNat - 48)) (c.toNat - 48))
          (rest.drop ds.length)
      else none
  | [] => none

/-- Parses a JSON number: an optional minus sign and digits. -/
def jpNumber (cs : List Char) : Option (Int × List Char) :=
  match cs with
  | c :: rest => if c == (Char.ofNat 45) then jpNumBody true rest else jpNumBody false cs
  | [] => none

/-- Adds an object member the way `JSON.parse` resolves duplicate keys: the
first occurrence keeps its position, the last value wins. -/
def insertMember : List (String × Json) → String → Json → List (String × Json)
  | [], k, v => [(k, v)]
  | (k0, v0) :: rest, k, v =>
      if k0 == k then (k0, v) :: rest else (k0, v0) :: insertMember rest k v

mutual

/-- Parses one JSON value at the head of the input (no leading whitespace):
a string, object, array, `true`, `false`, `null`, or number.  The fuel
argument bounds the recursion; every step consumes input, so the input
length suffices. -/
def jpValue : Nat → List Char → Option (Json × List Char)
  | 0, _ => none
  | fuel + 1, cs =>
      match cs with
      | [] => none
      | c :: rest =>
          if c == (Char.ofNat 34) then
            match jpStringAux [] rest with
            | some (str2, rest2) => some (Json.str (String.mk str2), rest2)
            | none => none
          else if c == (Char.ofNat 123) then jpObject fuel (skipWs rest)
          else if c == (Char.ofNat 91) then jpArray fuel (skipWs rest)
          else if c == (Char.ofNat 116) then
            match afterLit (("true").toList) cs with
            | some rest2 => some (Json.bool true, rest2)
            | none => none
          else if c == (Char.ofNat 102) then
            match afterLit (("false").toList) cs with
            | some rest2 => some (Json.bool false, rest2)
            | none => none
          else if c == (Char.ofNat 110) then
            match afterLit (("null").toList) cs with
            | some rest2 => some (Json.null, rest2)
            | none => none
          else
            match jpNumber cs with
            | some (n, rest2) => some (Json.num n, rest2)
            | none => none

/-- Parses a JSON object body after the opening brace (whitespace skipped). -/
def jpObject : Nat → List Char → Option (Json × List Char)
  | 0, _ => none
  | fuel + 1, cs =>
      match cs with
      | c :: rest => if c == (Char.ofNat 125) then some (Json.obj [], rest) else jpMembers fuel cs []
      | [] => none

/-- Parses the members of a nonempty JSON object: `"key" : value` pairs
separated by commas, up to the closing brace. -/
def jpMembers : Nat → List Char → List (String × Json) → Option (Json × List Char)
  | 0, _, _ => none
  | fuel + 1, cs, acc =>
      match cs with
      | c :: rest =>
          if c == (Char.ofNat 34) then
            match jpStringAux [] rest with
            | some (kcs, rest2) =>
                match skipWs rest2 with
                | c2 :: rest3 =>
                    if c2 == (Char.ofNat 58) then
                      match jpValue fuel (skipWs rest3) with
                      | some (v, rest4) =>
                          match skipWs rest4 with
                          | c3 :: rest5 =>
                              if c3 == (Char.ofNat 44) then
                                jpMembers fuel (skipWs rest5) (insertMember acc (String.mk kcs) v)
                              else if c3 == (Char.ofNat 125) then
                                some (Json.obj (insertMember acc (String.mk kcs) v), rest5)
                              else none
                          | [] => none
                      | none => none
                    else none
                | [] => none
            | none => none
          else none
      | [] => none

/-- Parses a JSON array body after the opening bracket (whitespace skipped). -/
def jpArray : Nat → List Char → Option (Json × List Char)
  | 0, _ => none
  | fuel + 1, cs =>
      match cs with
      | c :: rest => if c == (Char.ofNat 93) then some (Json.arr [], rest) else jpElements fuel cs []
      | [] => none

/-- Parses the elements of a nonempty JSON array: values separated by
commas, up to the closing bracket. -/
def jpElements : Nat → List Char → List Json → Option (Json × List Char)
  | 0, _, _ => none
  | fuel + 1, cs, acc =>
      match jpValue fuel cs with
      | some (v, rest) =>
          match skipWs rest with
          | c :: rest2 =>
              if c == (Char.ofNat 44) then jpElements fuel (skipWs rest2) (acc ++ [v])
              else if c == (Char.ofNat 93) then some (Json.arr (acc ++ [v]), rest2)
              else none
          | [] => none
      | none => none

end

/-- JavaScript `JSON.parse`: one JSON value surrounded by whitespace;
anything else (including trailing characters) is a parse error, modelled as
`none`. -/
def jsonParse (s : String) : Option Json :=
  match jpValue (s.length + 1) (skipWs s.toList) with
  | some (j, rest) => if skipWs rest == [] then some j else none
  | none => none

/-- The yup 0.x object schema's default `coerce` transform: a string input is
`JSON.parse`d (a parse error yielding `null`), and then any value failing the
object type check — everything but a plain object — is replaced by `null`. -/
def objectCoerce (j : Json) : Json :=
  match j with
  | Json.str s =>
      match jsonParse s with
      | some (Json.obj fields) => Json.obj fields
      | _ => Json.null
  | Json.obj fields => Json.obj fields
  | _ => Json.null

/-! ### Field validators

yup validates with the default `abortEarly`, so the first failing field in
schema declaration order determines the raised `ValidationError`.  Each field
is first cast (yup `cast`), then checked. -/

/-- Sequencing of field validations, raising the first error. -/
def bindE {α β : Type} : Except ValidationError α → (α → Except ValidationError β) → Except ValidationError β
  | Except.error e, _ => Except.error e
  | Except.ok a, f => f a

/-- yup `string().required()` on an object field: an absent field fails the
required test, `null` fails the not-null check, and any other value is cast
with `toString` and must be a non-empty string. -/
def validateRequiredString (name : String) (v : Option Json) : Except ValidationError String :=
  match v with
  | none => Except.error ⟨name, ValidationErrorKind.required⟩
  | some Json.null => Except.error ⟨name, ValidationErrorKind.notNull⟩
  | some j =>
      let s := jsonToString j
      if s == "" then Except.error ⟨name, ValidationErrorKind.required⟩ else Except.ok s

/-- yup `string().url().required()` on an object field: the required/not-null
checks of `validateRequiredString`, then the URL pattern test. -/
def validateRequiredUrl (name : String) (v : Option Json) : Except ValidationError String :=
  match validateRequiredString name v with
  | Except.error e => Except.error e
  | Except.ok s =>
      if rUrlTest s then Except.ok s else Except.error ⟨name, ValidationErrorKind.url⟩

/-- yup boolean cast: booleans unchanged; any other value whose string form
matches `/^(true|1)$/i` becomes `true`, `/^(false|0)$/i` becomes `false`;
everything else is left as is (and will fail the type check). -/
def castBoolean (j : Json) : Json :=
  match j with
  | Json.bool b => Json.bool b
  | j =>
      let s := (jsonToString j).toList.map lowerChar
      if s == ("true").toList || s == ("1").toList then Json.bool true
      else if s == ("false").toList || s == ("0").toList then Json.bool false
      else j

/-- yup `boolean().required()` on an object field: absent fails required,
`null` fails not-null, otherwise the cast value must be a boolean. -/
def validateRequiredBoolean (name : String) (v : Option Json) : Except ValidationError Bool :=
  match v with
  | none => Except.error ⟨name, ValidationErrorKind.required⟩
  | some Json.null => Except.error ⟨name, ValidationErrorKind.notNull⟩
  | some j =>
      match castBoolean j with
      | Json.bool b => Except.ok b
      | _ => Except.error ⟨name, ValidationErrorKind.typeError⟩

/-- The `ModVersion` entity produced by successful validation: exactly the
ten fields of `modVersionSchema` (`stripUnknown: true` drops the rest). -/
structure ModVersion where
  modTitle : String
  modDescription : String
  modBannerUrl : String
  modIconUrl : String
  modUrl : String
  modAuthorName : String
  modAuthorUrl : String
  version : String
  changelog : String
  initial : Bool

/-- The `modVersionSchema.validate(input, { stripUnknown: true })` call of
`validateModVersion`: the object schema's `coerce` transform first
`JSON.parse`s a string input and turns every non-object value into `null`,
which then fails the schema's not-null check with a `ValidationError`; on an
object the ten schema fields are validated in declaration order against
`string().required()` / `string().url().required()` /
`boolean().required()`, the first failure aborting with its
`ValidationError`, and unknown fields are dropped. -/
def validateModVersion (input : Json) : Except ValidationError ModVersion :=
  match objectCoerce input with
  | Json.obj fields =>
      bindE (validateRequiredString ("modTitle") (lookupField fields ("modTitle"))) (fun modTitle =>
      bindE (validateRequiredString ("modDescription") (lookupField fields ("modDescription"))) (fun modDescription =>
      bindE (validateRequiredUrl ("modBannerUrl") (lookupField fields ("modBannerUrl"))) (fun modBannerUrl =>
      bindE (validateRequiredUrl ("modIconUrl") (lookupField fields ("modIconUrl"))) (fun modIconUrl =>
      bindE (validateRequiredUrl ("modUrl") (lookupField fields ("modUrl"))) (fun modUrl =>
      bindE (validateRequiredString ("modAuthorName") (lookupField fields ("modAuthorName"))) (fun modAuthorName =>
      bindE (validateRequiredUrl ("modAuthorUrl") (lookupField fields ("modAuthorUrl"))) (fun modAuthorUrl =>
      bindE (validateRequiredString ("version") (lookupField fields ("version"))) (fun version =>
      bindE (validateRequiredString ("changelog") (lookupField fields ("changelog"))) (fun changelog =>
      bindE (validateRequiredBoolean ("initial") (lookupField fields ("initial"))) (fun initial =>
      Except.ok ⟨modTitle, modDescription, modBannerUrl, modIconUrl, modUrl,
                 modAuthorName, modAuthorUrl, version, changelog, initial⟩))))))))))
  | _ => Except.error ⟨"", ValidationErrorKind.notNull⟩

/-- The ten field names of `modVersionSchema`, in declaration order. -/
def modSchemaKeys : List String :=
  [("modTitle"), ("modDescription"), ("modBannerUrl"), ("modIconUrl"), ("modUrl"),
   ("modAuthorName"), ("modAuthorUrl"), ("version"), ("changelog"), ("initial")]

/-! ### Cooldown tracker, composer and dispatch pipeline

The repository file implementing the Discord client (cooldown tracking,
notification composition and dispatch) is not among the provided sources;
only its configuration declarations (`Configuration.pingCooldown`,
`ModVersionNotificationConfiguration.discordRolePingId`) and its callers
are.  The definitions below are therefore modelled from the specification. -/

/-- Modelled from the spec: the three fixed event categories. -/
inductive Category where
  | modVersion
  | launcherVersion
  | loaderVersion
deriving DecidableEq

/-- Modelled from the spec: the Cooldown Tracker's state — one slot per
category holding the timestamp (milliseconds) of the most recent role-ping
actually sent for that category, absent until the first ping. -/
structure CooldownState where
  modVersionLast : Option Int
  launcherVersionLast : Option Int
  loaderVersionLast : Option Int

/-- Modelled from the spec: the tracker state with no ping ever recorded. -/
def emptyCooldown : CooldownState := ⟨none, none, none⟩

/-- Modelled from the spec: reads a category's last-ping slot. -/
def getLast (st : CooldownState) : Category → Option Int
  | Category.modVersion => st.modVersionLast
  | Category.launcherVersion => st.launcherVersionLast
  | Category.loaderVersion => st.loaderVersionLast

/-- Modelled from the spec: `recordPing(category, now)` unconditionally
overwrites the stored timestamp for that category with `now`. -/
def recordPing (st : CooldownState) (c : Category) (now : Int) : CooldownState :=
  match c with
  | Category.modVersion => { st with modVersionLast := some now }
  | Category.launcherVersion => { st with launcherVersionLast := some now }
  | Category.loaderVersion => { st with loaderVersionLast := some now }

/-- Modelled from the spec: `shouldPing(category, now)` returns true if no
prior ping timestamp exists for the category, or if
`now - lastPingTimestamp >= cooldownDuration` (the process-wide
`Configuration.pingCooldown`, in milliseconds). -/
def shouldPing (cooldownDuration : Int) (st : CooldownState) (c : Category) (now : Int) : Bool :=
  match getLast st c with
  | none => true
  | some t => cooldownDuration ≤ now - t

/-- The per-category notification configuration from the `Configuration`
interface: the Discord webhook url and the optional
`discordRolePingId` ("If none is specified, role pings will be omitted"). -/
structure CategoryConfig where
  discordWebhookUrl : String
  discordRolePingId : Option String

/-- Modelled from the spec: a Composed Notification — target channel,
rendered content, and the role mention, absent (not an empty placeholder)
when omitted. -/
structure ComposedNotification where
  target : String
  content : String
  mention : Option String

/-- Modelled from the spec: renders the validated event's fields into the
message content deterministically. -/
def renderModVersion (ev : ModVersion) : String :=
  String.intercalate ("\n")
    [ev.modTitle, ev.modDescription, ev.modBannerUrl, ev.modIconUrl, ev.modUrl,
     ev.modAuthorName, ev.modAuthorUrl, ev.version, ev.changelog,
     if ev.initial then ("initial release") else ("update")]

/-- Modelled from the spec: `compose(category, event, pingDecision)` —
includes the role mention token iff the category config has a role id
configured and the ping decision is true; otherwise the mention is absent. -/
def compose (cfg : CategoryConfig) (content : String) (pingDecision : Bool) : ComposedNotification :=
  { target := cfg.discordWebhookUrl
    content := content
    mention := if pingDecision then cfg.discordRolePingId else none }

/-- Outcome reported by the external messaging sender (a black box to this
core), an input to the dispatch model. -/
inductive SendResult where
  | success
  | failure
deriving DecidableEq

/-- The dispatch pipeline's terminal error states. -/
inductive DispatchError where
  | validationFailure (e : ValidationError)
  | downstreamFailure
deriving DecidableEq

/-- The observable outcome of one dispatch: the terminal result, the cooldown
state after the dispatch, and the notification handed to the sender (absent
when validation failed before composition). -/
structure DispatchOutcome where
  result : Except DispatchError Unit
  state : CooldownState
  sent : Option ComposedNotification

/-- Modelled from the spec: the Dispatch Pipeline for the mod-version
category — validate, decide via `shouldPing`, compose, hand to the sender;
on sender success record the ping iff a mention was included, on sender
failure (or validation failure) leave the cooldown state untouched. -/
def handleModVersion (cfg : CategoryConfig) (cooldownDuration : Int)
    (st : CooldownState) (now : Int) (payload : Json) (sender : SendResult) :
    DispatchOutcome :=
  match validateModVersion payload with
  | Except.error e => ⟨Except.error (DispatchError.validationFailure e), st, none⟩
  | Except.ok ev =>
      let ping := shouldPing cooldownDuration st Category.modVersion now
      let note := compose cfg (renderModVersion ev) ping
      match sender with
      | SendResult.failure => ⟨Except.error DispatchError.downstreamFailure, st, some note⟩
      | SendResult.success =>
          let st2 := if note.mention.isSome then recordPing st Category.modVersion now else st
          ⟨Except.ok (), st2, some note⟩

/-! ### The webhook server's error handler

`WebhookServer.error` distinguishes a body-parse `SyntaxError` carrying
status 400 and a body, a yup `ValidationError`, and every other fault. -/

/-- An error reaching the express error handler: a body-parse fault with its
status and whether a `body` property is present, a yup `ValidationError`
(raised by the validators), or any other fault — in particular a failure of
the Discord sender propagated out of the release callback. -/
inductive AppError where
  | parseFault (status : Nat) (hasBody : Bool)
  | validation (e : ValidationError)
  | downstream
deriving DecidableEq

/-- An HTTP error response: status code and the `error` discriminator string
sent in the JSON body. -/
structure ErrorResponse where
  status : Nat
  error : String
deriving DecidableEq

/-- The `WebhookServer.error` handler: a `SyntaxError` with status 400 and a
body becomes a 400 `SyntaxError` response; a `ValidationError` becomes a 400
`ValidationError` response; anything else becomes a 500 `ServerError`
response. -/
def errorHandler (err : AppError) : ErrorResponse :=
  match err with
  | AppError.parseFault status hasBody =>
      if status == 400 && hasBody then ⟨400, ("SyntaxError")⟩ else ⟨500, ("ServerError")⟩
  | AppError.validation _ => ⟨400, ("ValidationError")⟩
  | AppError.downstream => ⟨500, ("ServerError")⟩

/-! ### Auxiliary definitions for stating the properties -/

/-- Whether a JSON value is structurally an object. -/
def isObjJson : Json → Bool
  | Json.obj _ => true
  | _ => false

/-- Whether a JSON value is structurally a string. -/
def isStrJson : Json → Bool
  | Json.str _ => true
  | _ => false

/-- Whether a string parses as a JSON object — the one case in which the
yup 0.x object-schema coerce transform turns a string input into something
other than `null`. -/
def parsesToObj (s : String) : Bool :=
  match jsonParse s with
  | some (Json.obj _) => true
  | _ => false

/-- Whether a field validation succeeded. -/
def exOk {α : Type} : Except ValidationError α → Bool
  | Except.ok _ => true
  | Except.error _ => false

/-- Whether one named schema field of a payload passes its own validator
(used to isolate a single field's effect on the whole validation). -/
def checkField (fields : List (String × Json)) : String → Bool
  | "modTitle" => exOk (validateRequiredString ("modTitle") (lookupField fields ("modTitle")))
  | "modDescription" => exOk (validateRequiredString ("modDescription") (lookupField fields ("modDescription")))
  | "modBannerUrl" => exOk (validateRequiredUrl ("modBannerUrl") (lookupField fields ("modBannerUrl")))
  | "modIconUrl" => exOk (validateRequiredUrl ("modIconUrl") (lookupField fields ("modIconUrl")))
  | "modUrl" => exOk (validateRequiredUrl ("modUrl") (lookupField fields ("modUrl")))
  | "modAuthorName" => exOk (validateRequiredString ("modAuthorName") (lookupField fields ("modAuthorName")))
  | "modAuthorUrl" => exOk (validateRequiredUrl ("modAuthorUrl") (lookupField fields ("modAuthorUrl")))
  | "version" => exOk (validateRequiredString ("version") (lookupField fields ("version")))
  | "changelog" => exOk (validateRequiredString ("changelog") (lookupField fields ("changelog")))
  | "initial" => exOk (validateRequiredBoolean ("initial") (lookupField fields ("initial")))
  | _ => false

/-- Modelled from the spec: a "syntactically valid URL" in the ordinary,
scheme-agnostic sense the specification appeals to — a nonempty ASCII-letter
scheme, the separator `://`, and a nonempty space-free remainder.  This is a
spec-side notion, stated for comparison with the code's `rUrlTest`. -/
def specWellFormedUrl (s : String) : Bool :=
  let cs := s.toList
  let scheme := cs.takeWhile (fun c => isAlphaL (lowerChar c))
  0 < scheme.length &&
  (match cs.drop scheme.length with
   | c1 :: c2 :: c3 :: tail =>
       c1 == (Char.ofNat 58) && c2 == (Char.ofNat 47) && c3 == (Char.ofNat 47) &&
       0 < tail.length && tail.all (fun c => c != (Char.ofNat 32))
   | _ => false)

/-! ### Concrete payloads used by witnesses and counterexamples -/

/-- A fully valid mod-version payload. -/
def goodFields : List (String × Json) :=
  [(("modTitle"), Json.str ("T")), (("modDescription"), Json.str ("D")),
   (("modBannerUrl"), Json.str ("http://a.bc")), (("modIconUrl"), Json.str ("http://a.bc")),
   (("modUrl"), Json.str ("http://a.bc")), (("modAuthorName"), Json.str ("A")),
   (("modAuthorUrl"), Json.str ("http://a.bc")), (("version"), Json.str ("1.0")),
   (("changelog"), Json.str ("c")), (("initial"), Json.bool true)]

/-- The event `goodFields` validates to. -/
def goodEvent : ModVersion :=
  ⟨("T"), ("D"), ("http://a.bc"), ("http://a.bc"), ("http://a.bc"),
   ("A"), ("http://a.bc"), ("1.0"), ("c"), true⟩

/-- `goodFields` with the required `version` field absent. -/
def missingVersionFields : List (String × Json) :=
  [(("modTitle"), Json.str ("T")), (("modDescription"), Json.str ("D")),
   (("modBannerUrl"), Json.str ("http://a.bc")), (("modIconUrl"), Json.str ("http://a.bc")),
   (("modUrl"), Json.str ("http://a.bc")), (("modAuthorName"), Json.str ("A")),
   (("modAuthorUrl"), Json.str ("http://a.bc")),
   (("changelog"), Json.str ("c")), (("initial"), Json.bool true)]

/-- `goodFields` with a well-formed but non-http/https/ftp banner URL. -/
def gopherFields : List (String × Json) :=
  [(("modTitle"), Json.str ("T")), (("modDescription"), Json.str ("D")),
   (("modBannerUrl"), Json.str ("gopher://a.bc")), (("modIconUrl"), Json.str ("http://a.bc")),
   (("modUrl"), Json.str ("http://a.bc")), (("modAuthorName"), Json.str ("A")),
   (("modAuthorUrl"), Json.str ("http://a.bc")), (("version"), Json.str ("1.0")),
   (("changelog"), Json.str ("c")), (("initial"), Json.bool true)]

/-- `goodFields` with the string `"true"` (not a boolean) as `initial`. -/
def coercedInitialFields : List (String × Json) :=
  [(("modTitle"), Json.str ("T")), (("modDescription"), Json.str ("D")),
   (("modBannerUrl"), Json.str ("http://a.bc")), (("modIconUrl"), Json.str ("http://a.bc")),
   (("modUrl"), Json.str ("http://a.bc")), (("modAuthorName"), Json.str ("A")),
   (("modAuthorUrl"), Json.str ("http://a.bc")), (("version"), Json.str ("1.0")),
   (("changelog"), Json.str ("c")), (("initial"), Json.str ("true"))]

/-- The event `coercedInitialFields` validates to. -/
def coercedInitialEvent : ModVersion :=
  ⟨("T"), ("D"), ("http://a.bc"), ("http://a.bc"), ("http://a.bc"),
   ("A"), ("http://a.bc"), ("1.0"), ("c"), true⟩

/-- `goodFields` with the number `1` (not a boolean) as `initial`. -/
def numInitialFields : List (String × Json) :=
  [(("modTitle"), Json.str ("T")), (("modDescription"), Json.str ("D")),
   (("modBannerUrl"), Json.str ("http://a.bc")), (("modIconUrl"), Json.str ("http://a.bc")),
   (("modUrl"), Json.str ("http://a.bc")), (("modAuthorName"), Json.str ("A")),
   (("modAuthorUrl"), Json.str ("http://a.bc")), (("version"), Json.str ("1.0")),
   (("changelog"), Json.str ("c")), (("initial"), Json.num 1)]

/-- The event `numInitialFields` validates to. -/
def numInitialEvent : ModVersion :=
  ⟨("T"), ("D"), ("http://a.bc"), ("http://a.bc"), ("http://a.bc"),
   ("A"), ("http://a.bc"), ("1.0"), ("c"), true⟩

/-- A category configuration with a role id configured. -/
def goodCfg : CategoryConfig := ⟨("https://discord.example/webhook"), some ("123")⟩

/-- The JSON text of `goodFields` — a string input, not an object. -/
def stringPayload : String :=
  "\x7b\"modTitle\":\"T\",\"modDescription\":\"D\",\"modBannerUrl\":\"http://a.bc\",\"modIconUrl\":\"http://a.bc\",\"modUrl\":\"http://a.bc\",\"modAuthorName\":\"A\",\"modAuthorUrl\":\"http://a.bc\",\"version\":\"1.0\",\"changelog\":\"c\",\"initial\":true\x7d"

/-! ### Helper lemmas -/

@[simp] theorem bindE_ok {α β : Type} (a : α) (f : α → Except ValidationError β) :
    bindE (Except.ok a) f = f a := rfl

@[simp] theorem bindE_error {α β : Type} (e : ValidationError) (f : α → Except ValidationError β) :
    bindE (Except.error e) f = Except.error e := rfl

@[simp] theorem objectCoerce_obj (fields : List (String × Json)) :
    objectCoerce (Json.obj fields) = Json.obj fields := rfl

theorem exOk_iff {α : Type} {e : Except ValidationError α} :
    exOk e = true ↔ ∃ v, e = Except.ok v := by
  cases e <;> simp [exOk]

theorem lookupField_append_single (fields : List (String × Json)) (k : String) (v : Json)
    (key : String) (h : key ≠ k) :
    lookupField (fields ++ [(k, v)]) key = lookupField fields key := by
  induction fields with
  | nil =>
      simp [lookupField, beq_eq_false_iff_ne.mpr (Ne.symm h)]
  | cons p rest ih =>
      cases p with
      | mk pk pv =>
          simp only [List.cons_append, lookupField]
          split
          · rfl
          · exact ih

theorem checkField_modTitle_ok {fields : List (String × Json)}
    (h : checkField fields ("modTitle") = true) :
    ∃ w, validateRequiredString ("modTitle") (lookupField fields ("modTitle")) = Except.ok w :=
  exOk_iff.mp (by simpa [checkField] using h)

theorem checkField_modDescription_ok {fields : List (String × Json)}
    (h : checkField fields ("modDescription") = true) :
    ∃ w, validateRequiredString ("modDescription") (lookupField fields ("modDescription")) = Except.ok w :=
  exOk_iff.mp (by simpa [checkField] using h)

theorem checkField_modBannerUrl_ok {fields : List (String × Json)}
    (h : checkField fields ("modBannerUrl") = true) :
    ∃ w, validateRequiredUrl ("modBannerUrl") (lookupField fields ("modBannerUrl")) = Except.ok w :=
  exOk_iff.mp (by simpa [checkField] using h)

theorem checkField_modIconUrl_ok {fields : List (String × Json)}
    (h : checkField fields ("modIconUrl") = true) :
    ∃ w, validateRequiredUrl ("modIconUrl") (lookupField fields ("modIconUrl")) = Except.ok w :=
  exOk_iff.mp (by simpa [checkField] using h)

theorem checkField_modUrl_ok {fields : List (String × Json)}
    (h : checkField fields ("modUrl") = true) :
    ∃ w, validateRequiredUrl ("modUrl") (lookupField fields ("modUrl")) = Except.ok w :=
  exOk_iff.mp (by simpa [checkField] using h)

theorem checkField_modAuthorName_ok {fields : List (String × Json)}
    (h : checkField fields ("modAuthorName") = true) :
    ∃ w, validateRequiredString ("modAuthorName") (lookupField fields ("modAuthorName")) = Except.ok w :=
  exOk_iff.mp (by simpa [checkField] using h)

theorem checkField_modAuthorUrl_ok {fields : List (String × Json)}
    (h : checkField fields ("modAuthorUrl") = true) :
    ∃ w, validateRequiredUrl ("modAuthorUrl") (lookupField fields ("modAuthorUrl")) = Except.ok w :=
  exOk_iff.mp (by simpa [checkField] using h)

theorem checkField_version_ok {fields : List (String × Json)}
    (h : checkField fields ("version") = true) :
    ∃ w, validateRequiredString ("version") (lookupField fields ("version")) = Except.ok w :=
  exOk_iff.mp (by simpa [checkField] using h)

theorem checkField_changelog_ok {fields : List (String × Json)}
    (h : checkField fields ("changelog") = true) :
    ∃ w, validateRequiredString ("changelog") (lookupField fields ("changelog")) = Except.ok w :=
  exOk_iff.mp (by simpa [checkField] using h)

theorem checkField_initial_ok {fields : List (String × Json)}
    (h : checkField fields ("initial") = true) :
    ∃ w, validateRequiredBoolean ("initial") (lookupField fields ("initial")) = Except.ok w :=
  exOk_iff.mp (by simpa [checkField] using h)

/-! ### Claim theorems -/

/-- C1: `shouldPing` returns true iff no ping timestamp is recorded for the
category or `now - lastPingTimestamp >= cooldownDuration`; consequently,
after a ping recorded at time `T` with cooldown `D`, a dispatch at `T + D - 1`
composes without a role mention (even with a role id configured) and a
dispatch at `T + D` composes with one. -/
theorem shouldPing_rule_and_cooldown_boundary :
    (∀ (D : Int) (st : CooldownState) (c : Category) (now : Int),
        shouldPing D st c now = true ↔
          (getLast st c = none ∨ ∃ t, getLast st c = some t ∧ D ≤ now - t))
    ∧ (∀ (D T : Int) (cfg : CategoryConfig) (r : String) (st : CooldownState)
          (p : Json) (ev : ModVersion),
        cfg.discordRolePingId = some r →
        validateModVersion p = Except.ok ev →
        (handleModVersion cfg D (recordPing st Category.modVersion T) (T + D - 1) p SendResult.success).sent =
          some (compose cfg (renderModVersion ev) false) ∧
        (compose cfg (renderModVersion ev) false).mention = none ∧
        (handleModVersion cfg D (recordPing st Category.modVersion T) (T + D) p SendResult.success).sent =
          some (compose cfg (renderModVersion ev) true) ∧
        (compose cfg (renderModVersion ev) true).mention = some r) := by
  constructor
  · intro D st c now
    cases hl : getLast st c with
    | none => simp [shouldPing, hl]
    | some t => simp [shouldPing, hl, decide_eq_true_iff]
  · intro D T cfg r st p ev hr hv
    have hg : getLast (recordPing st Category.modVersion T) Category.modVersion = some T := by
      simp [recordPing, getLast]
    have h1 : shouldPing D (recordPing st Category.modVersion T) Category.modVersion (T + D - 1) = false := by
      simp only [shouldPing, hg, decide_eq_false_iff_not]
      omega
    have h2 : shouldPing D (recordPing st Category.modVersion T) Category.modVersion (T + D) = true := by
      simp only [shouldPing, hg, decide_eq_true_iff]
      omega
    refine ⟨?_, by simp [compose], ?_, by simp [compose, hr]⟩
    · simp [handleModVersion, hv, h1]
    · simp [handleModVersion, hv, h2]

/-- C1 witness: the cooldown boundary behaviour at `D = 5`, `T = 100`, with a
configured role id `123` and a concretely validated payload. -/
theorem shouldPing_cooldown_boundary_witness :
    (handleModVersion goodCfg 5 (recordPing emptyCooldown Category.modVersion 100) (100 + 5 - 1) (Json.obj goodFields) SendResult.success).sent =
      some (compose goodCfg (renderModVersion goodEvent) false) ∧
    (compose goodCfg (renderModVersion goodEvent) false).mention = none ∧
    (handleModVersion goodCfg 5 (recordPing emptyCooldown Category.modVersion 100) (100 + 5) (Json.obj goodFields) SendResult.success).sent =
      some (compose goodCfg (renderModVersion goodEvent) true) ∧
    (compose goodCfg (renderModVersion goodEvent) true).mention = some ("123") :=
  shouldPing_rule_and_cooldown_boundary.2 5 100 goodCfg ("123") emptyCooldown (Json.obj goodFields) goodEvent rfl rfl

/-- C2: when the external sender fails, `recordPing` is not called — the
cooldown state after the dispatch is exactly the state before it, so every
subsequent `shouldPing` answer is unchanged. -/
theorem downstream_failure_preserves_cooldown :
    ∀ (cfg : CategoryConfig) (D : Int) (st : CooldownState) (now : Int) (p : Json),
      (handleModVersion cfg D st now p SendResult.failure).state = st ∧
      (∀ (c : Category) (t : Int),
        shouldPing D (handleModVersion cfg D st now p SendResult.failure).state c t =
          shouldPing D st c t) := by
  intro cfg D st now p
  cases hv : validateModVersion p <;> simp [handleModVersion, hv]

/-- C3: the composed notification carries the role mention iff the category
configuration defines a role id and the ping decision is true; in every other
case the mention is `none` — absent, not an empty placeholder. -/
theorem compose_mention_iff :
    ∀ (cfg : CategoryConfig) (content : String) (ping : Bool),
      ((compose cfg content ping).mention.isSome = (ping && cfg.discordRolePingId.isSome)) ∧
      (∀ m : String, (compose cfg content ping).mention = some m ↔
        ping = true ∧ cfg.discordRolePingId = some m) := by
  intro cfg content ping
  cases ping <;> simp [compose]

/-- C5: recording a ping for one category leaves `shouldPing` for every
other category unchanged, at every time and cooldown duration. -/
theorem recordPing_category_independent :
    ∀ (st : CooldownState) (a b : Category) (T T2 D : Int), a ≠ b →
      shouldPing D (recordPing st a T) b T2 = shouldPing D st b T2 := by
  intro st a b T T2 D h
  cases a <;> cases b <;> first
    | exact absurd rfl h
    | simp [recordPing, shouldPing, getLast]

/-- C5 witness: recording a mod-version ping at time 100 does not change the
launcher-version `shouldPing` answer at time 101. -/
theorem recordPing_category_independent_witness :
    shouldPing 5 (recordPing emptyCooldown Category.modVersion 100) Category.launcherVersion 101 =
      shouldPing 5 emptyCooldown Category.launcherVersion 101 :=
  recordPing_category_independent emptyCooldown Category.modVersion Category.launcherVersion 100 101 5 (by decide)

/-- C7 counterexample: a string input — structurally not an object — that
encodes a schema-valid object is not rejected: the yup 0.x object schema's
coerce transform `JSON.parse`s string inputs, so `validateModVersion`
accepts the JSON text of a valid payload, refuting the universal
rejection of non-object inputs. -/
theorem validateModVersion_accepts_json_object_string :
    isObjJson (Json.str stringPayload) = false ∧
    validateModVersion (Json.str stringPayload) = Except.ok goodEvent :=
  ⟨rfl, rfl⟩

/-- C7 amended: every input that is structurally neither an object nor a
string (number, boolean, array, `null`) is rejected with a
`ValidationError` value, not a different fault; a string input is
`JSON.parse`d by the object schema's coerce transform and is likewise
rejected with a `ValidationError` whenever it does not parse to a JSON
object (in particular for every malformed string). -/
theorem validateModVersion_noncoercible_rejected :
    (∀ j : Json, isObjJson j = false → isStrJson j = false →
      ∃ e, validateModVersion j = Except.error e) ∧
    (∀ s : String, parsesToObj s = false →
      ∃ e, validateModVersion (Json.str s) = Except.error e) := by
  constructor
  · intro j h1 h2
    cases j with
    | null => exact ⟨_, rfl⟩
    | bool b => exact ⟨_, rfl⟩
    | num n => exact ⟨_, rfl⟩
    | arr xs => exact ⟨_, rfl⟩
    | str s => simp [isStrJson] at h2
    | obj f => simp [isObjJson] at h1
  · intro s hp
    refine ⟨⟨"", ValidationErrorKind.notNull⟩, ?_⟩
    cases hj : jsonParse s with
    | none => simp [validateModVersion, objectCoerce, hj]
    | some j =>
      cases j with
      | obj f => simp [parsesToObj, hj] at hp
      | null => simp [validateModVersion, objectCoerce, hj]
      | bool b => simp [validateModVersion, objectCoerce, hj]
      | num n => simp [validateModVersion, objectCoerce, hj]
      | str s2 => simp [validateModVersion, objectCoerce, hj]
      | arr xs => simp [validateModVersion, objectCoerce, hj]

/-- C7 witness: the number `5` and the unparsable string `not json` are both
rejected with a `ValidationError`. -/
theorem validateModVersion_noncoercible_witness :
    (∃ e, validateModVersion (Json.num 5) = Except.error e) ∧
    (∃ e, validateModVersion (Json.str ("not json")) = Except.error e) :=
  ⟨validateModVersion_noncoercible_rejected.1 (Json.num 5) rfl rfl,
   validateModVersion_noncoercible_rejected.2 ("not json") rfl⟩

/-- C8: the error handler maps every `ValidationError` to a 400 response
naming `ValidationError`, and a downstream (sender) failure to a distinct 500
`ServerError` response, so the caller can tell the two failure kinds apart. -/
theorem errorHandler_distinguishes_failures :
    ∀ e : ValidationError,
      errorHandler (AppError.validation e) = ⟨400, ("ValidationError")⟩ ∧
      errorHandler AppError.downstream = ⟨500, ("ServerError")⟩ ∧
      errorHandler (AppError.validation e) ≠ errorHandler AppError.downstream := by
  intro e
  refine ⟨rfl, rfl, ?_⟩
  simp [errorHandler]

/-- C10: `validateModVersion` coerces rather than rejects coercible
mis-typed values — a payload whose `initial` field is the string `"true"`
validates successfully and the resulting event's `initial` is the boolean
`true`, because yup casts values before its type checks run. -/
theorem validateModVersion_coerces_string_true :
    lookupField coercedInitialFields ("initial") = some (Json.str ("true")) ∧
    validateModVersion (Json.obj coercedInitialFields) = Except.ok coercedInitialEvent ∧
    coercedInitialEvent.initial = true :=
  ⟨rfl, rfl, rfl⟩

theorem validateRequiredString_none (name : String) :
    validateRequiredString name none = Except.error ⟨name, ValidationErrorKind.required⟩ := rfl

theorem validateRequiredUrl_none (name : String) :
    validateRequiredUrl name none = Except.error ⟨name, ValidationErrorKind.required⟩ := rfl

theorem validateRequiredBoolean_none (name : String) :
    validateRequiredBoolean name none = Except.error ⟨name, ValidationErrorKind.required⟩ := rfl

/-- C9: fields not in the mod-version schema never affect validation —
appending an unknown field to any payload leaves the result of
`validateModVersion` unchanged (and the returned `ModVersion` structurally
contains only the ten schema fields). -/
theorem validateModVersion_ignores_unknown_field :
    ∀ (fields : List (String × Json)) (k : String) (v : Json), k ∉ modSchemaKeys →
      validateModVersion (Json.obj (fields ++ [(k, v)])) = validateModVersion (Json.obj fields) := by
  intro fields k v hk
  have hne : ∀ key, key ∈ modSchemaKeys → key ≠ k := fun key hmem heq => hk (heq ▸ hmem)
  simp only [validateModVersion, objectCoerce_obj,
    lookupField_append_single fields k v ("modTitle") (hne _ (by decide)),
    lookupField_append_single fields k v ("modDescription") (hne _ (by decide)),
    lookupField_append_single fields k v ("modBannerUrl") (hne _ (by decide)),
    lookupField_append_single fields k v ("modIconUrl") (hne _ (by decide)),
    lookupField_append_single fields k v ("modUrl") (hne _ (by decide)),
    lookupField_append_single fields k v ("modAuthorName") (hne _ (by decide)),
    lookupField_append_single fields k v ("modAuthorUrl") (hne _ (by decide)),
    lookupField_append_single fields k v ("version") (hne _ (by decide)),
    lookupField_append_single fields k v ("changelog") (hne _ (by decide)),
    lookupField_append_single fields k v ("initial") (hne _ (by decide))]

/-- C9 witness: appending an `extra` field to a valid payload leaves the
validation result unchanged. -/
theorem validateModVersion_ignores_unknown_witness :
    validateModVersion (Json.obj (goodFields ++ [(("extra"), Json.str ("x"))])) =
      validateModVersion (Json.obj goodFields) :=
  validateModVersion_ignores_unknown_field goodFields ("extra") (Json.str ("x")) (by decide)

/-- C4 counterexample: a payload whose `initial` field is the number `1` —
not a boolean, so not well-typed in the claim's sense — is nevertheless
accepted by `validateModVersion` (yup casts before type-checking), refuting
the claim's "only if all ten fields are well-typed" direction. -/
theorem validateModVersion_accepts_coercible_initial :
    lookupField numInitialFields ("initial") = some (Json.num 1) ∧
    validateModVersion (Json.obj numInitialFields) = Except.ok numInitialEvent :=
  ⟨rfl, rfl⟩

/-- C4 amended: `validateModVersion` accepts every payload whose ten
required fields each pass their schema validator (non-empty strings after
cast, URL fields matching yup's URL pattern, `initial` a boolean after cast),
and a payload missing any one required field while the other nine pass is
rejected with a `ValidationError` naming exactly that field; acceptance does
not require the claim's strict well-typedness, since coercible values are
cast before the type checks. -/
theorem validateModVersion_required_fields :
    (∀ fields : List (String × Json),
        (∀ k, k ∈ modSchemaKeys → checkField fields k = true) →
        ∃ ev, validateModVersion (Json.obj fields) = Except.ok ev)
    ∧ (∀ (fields : List (String × Json)) (k : String),
        k ∈ modSchemaKeys → lookupField fields k = none →
        (∀ m, m ∈ modSchemaKeys → m ≠ k → checkField fields m = true) →
        validateModVersion (Json.obj fields) =
          Except.error ⟨k, ValidationErrorKind.required⟩) := by
  constructor
  · intro fields h
    obtain ⟨w1, e1⟩ := checkField_modTitle_ok (h _ (by decide))
    obtain ⟨w2, e2⟩ := checkField_modDescription_ok (h _ (by decide))
    obtain ⟨w3, e3⟩ := checkField_modBannerUrl_ok (h _ (by decide))
    obtain ⟨w4, e4⟩ := checkField_modIconUrl_ok (h _ (by decide))
    obtain ⟨w5, e5⟩ := checkField_modUrl_ok (h _ (by decide))
    obtain ⟨w6, e6⟩ := checkField_modAuthorName_ok (h _ (by decide))
    obtain ⟨w7, e7⟩ := checkField_modAuthorUrl_ok (h _ (by decide))
    obtain ⟨w8, e8⟩ := checkField_version_ok (h _ (by decide))
    obtain ⟨w9, e9⟩ := checkField_changelog_ok (h _ (by decide))
    obtain ⟨w10, e10⟩ := checkField_initial_ok (h _ (by decide))
    refine ⟨⟨w1, w2, w3, w4, w5, w6, w7, w8, w9, w10⟩, ?_⟩
    simp [validateModVersion, e1, e2, e3, e4, e5, e6, e7, e8, e9, e10]
  · intro fields k hk hnone hother
    simp only [modSchemaKeys, List.mem_cons, List.not_mem_nil, or_false] at hk
    rcases hk with rfl | rfl | rfl | rfl | rfl | rfl | rfl | rfl | rfl | rfl
    · simp [validateModVersion, hnone, validateRequiredString_none]
    · obtain ⟨w1, e1⟩ := checkField_modTitle_ok (hother _ (by decide) (by decide))
      simp [validateModVersion, e1, hnone, validateRequiredString_none]
    · obtain ⟨w1, e1⟩ := checkField_modTitle_ok (hother _ (by decide) (by decide))
      obtain ⟨w2, e2⟩ := checkField_modDescription_ok (hother _ (by decide) (by decide))
      simp [validateModVersion, e1, e2, hnone, validateRequiredUrl_none]
    · obtain ⟨w1, e1⟩ := checkField_modTitle_ok (hother _ (by decide) (by decide))
      obtain ⟨w2, e2⟩ := checkField_modDescription_ok (hother _ (by decide) (by decide))
      obtain ⟨w3, e3⟩ := checkField_modBannerUrl_ok (hother _ (by decide) (by decide))
      simp [validateModVersion, e1, e2, e3, hnone, validateRequiredUrl_none]
    · obtain ⟨w1, e1⟩ := checkField_modTitle_ok (hother _ (by decide) (by decide))
      obtain ⟨w2, e2⟩ := checkField_modDescription_ok (hother _ (by decide) (by decide))
      obtain ⟨w3, e3⟩ := checkField_modBannerUrl_ok (hother _ (by decide) (by decide))
      obtain ⟨w4, e4⟩ := checkField_modIconUrl_ok (hother _ (by decide) (by decide))
      simp [validateModVersion, e1, e2, e3, e4, hnone, validateRequiredUrl_none]
    · obtain ⟨w1, e1⟩ := checkField_modTitle_ok (hother _ (by decide) (by decide))
      obtain ⟨w2, e2⟩ := checkField_modDescription_ok (hother _ (by decide) (by decide))
      obtain ⟨w3, e3⟩ := checkField_modBannerUrl_ok (hother _ (by decide) (by decide))
      obtain ⟨w4, e4⟩ := checkField_modIconUrl_ok (hother _ (by decide) (by decide))
      obtain ⟨w5, e5⟩ := checkField_modUrl_ok (hother _ (by decide) (by decide))
      simp [validateModVersion, e1, e2, e3, e4, e5, hnone, validateRequiredString_none]
    · obtain ⟨w1, e1⟩ := checkField_modTitle_ok (hother _ (by decide) (by decide))
      obtain ⟨w2, e2⟩ := checkField_modDescription_ok (hother _ (by decide) (by decide))
      obtain ⟨w3, e3⟩ := checkField_modBannerUrl_ok (hother _ (by decide) (by decide))
      obtain ⟨w4, e4⟩ := checkField_modIconUrl_ok (hother _ (by decide) (by decide))
      obtain ⟨w5, e5⟩ := checkField_modUrl_ok (hother _ (by decide) (by decide))
      obtain ⟨w6, e6⟩ := checkField_modAuthorName_ok (hother _ (by decide) (by decide))
      simp [validateModVersion, e1, e2, e3, e4, e5, e6, hnone, validateRequiredUrl_none]
    · obtain ⟨w1, e1⟩ := checkField_modTitle_ok (hother _ (by decide) (by decide))
      obtain ⟨w2, e2⟩ := checkField_modDescription_ok (hother _ (by decide) (by decide))
      obtain ⟨w3, e3⟩ := checkField_modBannerUrl_ok (hother _ (by decide) (by decide))
      obtain ⟨w4, e4⟩ := checkField_modIconUrl_ok (hother _ (by decide) (by decide))
      obtain ⟨w5, e5⟩ := checkField_modUrl_ok (hother _ (by decide) (by decide))
      obtain ⟨w6, e6⟩ := checkField_modAuthorName_ok (hother _ (by decide) (by decide))
      obtain ⟨w7, e7⟩ := checkField_modAuthorUrl_ok (hother _ (by decide) (by decide))
      simp [validateModVersion, e1, e2, e3, e4, e5, e6, e7, hnone, validateRequiredString_none]
    · obtain ⟨w1, e1⟩ := checkField_modTitle_ok (hother _ (by decide) (by decide))
      obtain ⟨w2, e2⟩ := checkField_modDescription_ok (hother _ (by decide) (by decide))
      obtain ⟨w3, e3⟩ := checkField_modBannerUrl_ok (hother _ (by decide) (by decide))
      obtain ⟨w4, e4⟩ := checkField_modIconUrl_ok (hother _ (by decide) (by decide))
      obtain ⟨w5, e5⟩ := checkField_modUrl_ok (hother _ (by decide) (by decide))
      obtain ⟨w6, e6⟩ := checkField_modAuthorName_ok (hother _ (by decide) (by decide))
      obtain ⟨w7, e7⟩ := checkField_modAuthorUrl_ok (hother _ (by decide) (by decide))
      obtain ⟨w8, e8⟩ := checkField_version_ok (hother _ (by decide) (by decide))
      simp [validateModVersion, e1, e2, e3, e4, e5, e6, e7, e8, hnone, validateRequiredString_none]
    · obtain ⟨w1, e1⟩ := checkField_modTitle_ok (hother _ (by decide) (by decide))
      obtain ⟨w2, e2⟩ := checkField_modDescription_ok (hother _ (by decide) (by decide))
      obtain ⟨w3, e3⟩ := checkField_modBannerUrl_ok (hother _ (by decide) (by decide))
      obtain ⟨w4, e4⟩ := checkField_modIconUrl_ok (hother _ (by decide) (by decide))
      obtain ⟨w5, e5⟩ := checkField_modUrl_ok (hother _ (by decide) (by decide))
      obtain ⟨w6, e6⟩ := checkField_modAuthorName_ok (hother _ (by decide) (by decide))
      obtain ⟨w7, e7⟩ := checkField_modAuthorUrl_ok (hother _ (by decide) (by decide))
      obtain ⟨w8, e8⟩ := checkField_version_ok (hother _ (by decide) (by decide))
      obtain ⟨w9, e9⟩ := checkField_changelog_ok (hother _ (by decide) (by decide))
      simp [validateModVersion, e1, e2, e3, e4, e5, e6, e7, e8, e9, hnone, validateRequiredBoolean_none]

/-- C4 witness: a fully valid payload is accepted, and the same payload
with `version` removed is rejected with a required-field error naming
`version`. -/
theorem validateModVersion_required_fields_witness :
    (∃ ev, validateModVersion (Json.obj goodFields) = Except.ok ev) ∧
    validateModVersion (Json.obj missingVersionFields) =
      Except.error ⟨("version"), ValidationErrorKind.required⟩ :=
  ⟨validateModVersion_required_fields.1 goodFields (by decide),
   validateModVersion_required_fields.2 missingVersionFields ("version") (by decide) rfl (by decide)⟩

/-- C6 counterexample: `gopher://a.bc` is a syntactically valid URL in the
scheme-agnostic sense the claim appeals to, yet yup's URL pattern rejects it
(its optional scheme group admits only `http`, `https` and `ftp`), so
`validateModVersion` rejects the payload with a URL error on `modBannerUrl` —
refuting "accepted regardless of the URL's scheme". -/
theorem validateModVersion_rejects_valid_scheme_url :
    specWellFormedUrl ("gopher://a.bc") = true ∧
    rUrlTest ("gopher://a.bc") = false ∧
    validateModVersion (Json.obj gopherFields) =
      Except.error ⟨("modBannerUrl"), ValidationErrorKind.url⟩ :=
  ⟨rfl, rfl, rfl⟩

/-- C6 amended: with every other field passing, a non-empty string in the
`modBannerUrl` field passes validation iff it matches yup's URL pattern
`rUrlTest` — so non-URL strings such as `"not a url"` are rejected, but a
syntactically valid URL is accepted only when its scheme is http, https or
ftp (or is scheme-relative). -/
theorem validateModVersion_url_gate :
    ∀ (fields : List (String × Json)) (s : String),
      lookupField fields ("modBannerUrl") = some (Json.str s) → s ≠ "" →
      (∀ m, m ∈ modSchemaKeys → m ≠ ("modBannerUrl") → checkField fields m = true) →
      (rUrlTest s = false →
        validateModVersion (Json.obj fields) =
          Except.error ⟨("modBannerUrl"), ValidationErrorKind.url⟩) ∧
      (rUrlTest s = true →
        ∃ ev, validateModVersion (Json.obj fields) = Except.ok ev ∧ ev.modBannerUrl = s) := by
  intro fields s hlook hne hother
  obtain ⟨w1, e1⟩ := checkField_modTitle_ok (hother _ (by decide) (by decide))
  obtain ⟨w2, e2⟩ := checkField_modDescription_ok (hother _ (by decide) (by decide))
  have hs : (s == "") = false := beq_eq_false_iff_ne.mpr hne
  have hcast : validateRequiredString ("modBannerUrl") (lookupField fields ("modBannerUrl")) =
      Except.ok s := by
    simp [validateRequiredString, hlook, jsonToString, hs]
  constructor
  · intro hf
    have hurl : validateRequiredUrl ("modBannerUrl") (lookupField fields ("modBannerUrl")) =
        Except.error ⟨("modBannerUrl"), ValidationErrorKind.url⟩ := by
      simp [validateRequiredUrl, hcast, hf]
    simp [validateModVersion, e1, e2, hurl]
  · intro ht
    have hurl : validateRequiredUrl ("modBannerUrl") (lookupField fields ("modBannerUrl")) =
        Except.ok s := by
      simp [validateRequiredUrl, hcast, ht]
    obtain ⟨w4, e4⟩ := checkField_modIconUrl_ok (hother _ (by decide) (by decide))
    obtain ⟨w5, e5⟩ := checkField_modUrl_ok (hother _ (by decide) (by decide))
    obtain ⟨w6, e6⟩ := checkField_modAuthorName_ok (hother _ (by decide) (by decide))
    obtain ⟨w7, e7⟩ := checkField_modAuthorUrl_ok (hother _ (by decide) (by decide))
    obtain ⟨w8, e8⟩ := checkField_version_ok (hother _ (by decide) (by decide))
    obtain ⟨w9, e9⟩ := checkField_changelog_ok (hother _ (by decide) (by decide))
    obtain ⟨w10, e10⟩ := checkField_initial_ok (hother _ (by decide) (by decide))
    refine ⟨⟨w1, w2, s, w4, w5, w6, w7, w8, w9, w10⟩, ?_, rfl⟩
    simp [validateModVersion, e1, e2, hurl, e4, e5, e6, e7, e8, e9, e10]

/-- C6 witness: the gopher-scheme payload is rejected with a URL error on
`modBannerUrl`, while the same payload shape with `http://a.bc` is accepted
and preserves the URL. -/
theorem validateModVersion_url_gate_witness :
    validateModVersion (Json.obj gopherFields) =
      Except.error ⟨("modBannerUrl"), ValidationErrorKind.url⟩ ∧
    (∃ ev, validateModVersion (Json.obj goodFields) = Except.ok ev ∧
      ev.modBannerUrl = ("http://a.bc")) :=
  ⟨(validateModVersion_url_gate gopherFields ("gopher://a.bc") rfl (by decide) (by decide)).1 (by decide),
   (validateModVersion_url_gate goodFields ("http://a.bc") rfl (by decide) (by decide)).2 (by decide)⟩
